import Mathlib

/-!
Shallow embedding of the production-control repository
(`controle_producao`): injection-molding machines (injetoras), molds
(moldes), production orders (ordens de produção), daily production
records and maintenance records, together with the lifecycle operations
`OrdemProducao.criar`, `OrdemProducao.salvar`,
`OrdemProducao.verificar_atrasos`, `OrdemProducao.cancelar`,
`registrar_apontamento`, `Molde.registrar_manutencao` and the shift
helper `get_turno_atual`.

Embedding conventions:
* Python `float` is embedded as `ℚ`; Python `int` as `Int`; calendar
  dates as `Int` day numbers (`date.today()` becomes an explicit
  parameter `hoje`); times of day as seconds since midnight (`Nat`).
* The SQLite database is a record of lists of rows; `WHERE id = ?`
  comparisons use SQL semantics (`NULL = x` is never true), captured by
  `sqlIdEq`.
* Functions that raise `ValueError` return `Except String`; the
  presentation-only `data_cadastro` wall-clock timestamp column is
  omitted.
-/

namespace ControleProducao

/-- A row of the `injetoras` table / the `Injetora` dataclass. -/
structure Injetora where
  numero : String
  marca : String
  capacidade_ton : ℚ
  status : String
  manutencao_proxima : Option Int
  data_ultima_manutencao : Option Int
  horimetro_atual : Int
  horimetro_proxima_manutencao : Option Int
  observacoes : Option String
  id : Option Nat
  deriving Repr, DecidableEq

/-- A row of the `moldes` table / the `Molde` dataclass. -/
structure Molde where
  nome : String
  fabricante : String
  num_cavidades : Int
  ciclos_total : Int
  ciclos_desde_manutencao : Int
  manutencao_proxima : Option Int
  data_ultima_manutencao : Option Int
  status : String
  observacoes : Option String
  id : Option Nat
  deriving Repr, DecidableEq

/-- A row of the `ordens_producao` table / the `OrdemProducao` dataclass. -/
structure OrdemProducao where
  numero_pedido : String
  cliente : String
  injetora_id : Nat
  molde_id : Nat
  quantidade_total : Int
  ciclo_segundos : ℚ
  material : String
  percentual_master : ℚ
  peso_peca : ℚ
  data_inicio : Int
  data_fim : Option Int
  quantidade_produzida : Int
  peso_total : Option ℚ
  status : String
  prioridade : Int
  observacoes : Option String
  id : Option Nat
  deriving Repr, DecidableEq

/-- A row of the `producao_diaria` table (one daily appointment). -/
structure ProducaoDiaria where
  ordem_id : Nat
  data : Int
  turno : String
  quantidade_produzida : Int
  refugo_kg : ℚ
  operador : String
  observacoes : String
  deriving Repr, DecidableEq

/-- A row of the `manutencoes` table (one maintenance event). -/
structure Manutencao where
  tipo : String
  equipamento_id : Option Nat
  data_manutencao : Int
  tipo_manutencao : String
  descricao : String
  tecnico : String
  custo : ℚ
  tempo_parado_horas : ℚ
  deriving Repr, DecidableEq

/-- The embedded database: the five tables of `database/schema.py`. -/
structure DB where
  injetoras : List Injetora
  moldes : List Molde
  ordens : List OrdemProducao
  producao_diaria : List ProducaoDiaria
  manutencoes : List Manutencao
  deriving Repr, DecidableEq

/-- SQL equality of a row id against a bound parameter: `NULL = x` is
never true, so a `None` on either side never matches. -/
def sqlIdEq (rowId : Option Nat) (param : Option Nat) : Bool :=
  match rowId, param with
  | some a, some b => a == b
  | _, _ => false

/-- `Injetora.get_by_id`: `SELECT * FROM injetoras WHERE id = ?`. -/
def Injetora.get_by_id (db : DB) (i : Nat) : Option Injetora :=
  db.injetoras.find? (fun row => sqlIdEq row.id (some i))

/-- `Molde.get_by_id`: `SELECT * FROM moldes WHERE id = ?`. -/
def Molde.get_by_id (db : DB) (i : Nat) : Option Molde :=
  db.moldes.find? (fun row => sqlIdEq row.id (some i))

/-- Python `str.strip()`: drop leading and trailing whitespace. -/
def pyStrip (s : String) : String :=
  ⟨((s.data.dropWhile Char.isWhitespace).reverse.dropWhile
    Char.isWhitespace).reverse⟩

/-- Python truthiness of a string: `not s` holds exactly on `""`;
`not s or not s.strip()` holds exactly on whitespace-only strings. -/
def isBlank (s : String) : Bool := pyStrip s == ""

/-- Python 3 `round` on an exact rational: round half to even. -/
def pythonRound (q : ℚ) : ℤ :=
  if q - (⌊q⌋ : ℚ) = 1 / 2 then
    (if 2 ∣ ⌊q⌋ then ⌊q⌋ else ⌊q⌋ + 1)
  else round q

/-- `OrdemProducao.criar`: validated construction of a production order.
Raises `ValueError` (here `Except.error`) on each invalid input, looks
up the machine and the mold, computes the total material weight and the
estimated completion date, and returns the new (unsaved) order. -/
def OrdemProducao.criar (db : DB)
    (numero_pedido cliente : String)
    (injetora_id molde_id : Nat)
    (quantidade_total : Int)
    (ciclo_segundos : ℚ)
    (material : String)
    (percentual_master peso_peca : ℚ)
    (data_inicio : Int)
    (prioridade : Int := 3)
    (observacoes : Option String := none) :
    Except String OrdemProducao :=
  if isBlank numero_pedido then
    .error "Número do pedido é obrigatório"
  else if isBlank cliente then
    .error "Cliente é obrigatório"
  else if quantidade_total ≤ 0 then
    .error "Quantidade total deve ser maior que zero"
  else if ciclo_segundos ≤ 0 then
    .error "Ciclo deve ser maior que zero"
  else if percentual_master < 0 ∨ percentual_master > 100 then
    .error "Percentual de master deve estar entre 0 e 100"
  else if peso_peca ≤ 0 then
    .error "Peso da peça deve ser maior que zero"
  else if ¬ (prioridade = 1 ∨ prioridade = 2 ∨ prioridade = 3) then
    .error "Prioridade inválida"
  else
    match Injetora.get_by_id db injetora_id with
    | none => .error "Injetora não encontrada"
    | some injetora =>
      if injetora.status ≠ "Disponível" then
        .error "Injetora não está disponível"
      else
        match Molde.get_by_id db molde_id with
        | none => .error "Molde não encontrado"
        | some molde =>
          if molde.status ≠ "Disponível" then
            .error "Molde não está disponível"
          else
            let peso_total : ℚ :=
              ((quantidade_total : ℚ) * peso_peca / 1000) *
                (1 + percentual_master / 100)
            let ciclo_horas : ℚ := ciclo_segundos / 3600
            let num_ciclos : ℚ :=
              (quantidade_total : ℚ) / (molde.num_cavidades : ℚ)
            let horas_totais : ℚ := (ciclo_horas * num_ciclos) / (85 / 100)
            let dias_producao : ℤ := max 1 (pythonRound (horas_totais / 24))
            let data_fim : Int := data_inicio + dias_producao
            .ok {
              numero_pedido := pyStrip numero_pedido
              cliente := pyStrip cliente
              injetora_id := injetora_id
              molde_id := molde_id
              quantidade_total := quantidade_total
              ciclo_segundos := ciclo_segundos
              material := material
              percentual_master := percentual_master
              peso_peca := peso_peca
              data_inicio := data_inicio
              data_fim := some data_fim
              quantidade_produzida := 0
              peso_total := some peso_total
              status := "Pendente"
              prioridade := prioridade
              observacoes := observacoes
              id := none
            }

/-- `OrdemProducao.salvar`: insert a new order (when `id` is `None`) —
which also flips the referenced machine's and mold's status to
`'Em Uso'` — or update the existing row (when `id` is set), which
touches no machine or mold. Returns the new database together with the
order object (whose `id` is filled in with `cursor.lastrowid`, passed
here as `newId`). -/
def OrdemProducao.salvar (db : DB) (o : OrdemProducao) (newId : Nat) :
    DB × OrdemProducao :=
  match o.id with
  | none =>
    let novo := { o with id := some newId }
    ({ db with
        ordens := db.ordens ++ [novo]
        injetoras := db.injetoras.map (fun i =>
          if sqlIdEq i.id (some o.injetora_id) then
            { i with status := "Em Uso" }
          else i)
        moldes := db.moldes.map (fun m =>
          if sqlIdEq m.id (some o.molde_id) then
            { m with status := "Em Uso" }
          else m) },
      novo)
  | some n =>
    ({ db with
        ordens := db.ordens.map (fun r =>
          if sqlIdEq r.id (some n) then
            { r with
                cliente := o.cliente
                quantidade_total := o.quantidade_total
                quantidade_produzida := o.quantidade_produzida
                ciclo_segundos := o.ciclo_segundos
                material := o.material
                percentual_master := o.percentual_master
                peso_peca := o.peso_peca
                peso_total := o.peso_total
                data_inicio := o.data_inicio
                data_fim := o.data_fim
                status := o.status
                prioridade := o.prioridade
                observacoes := o.observacoes }
          else r) },
      o)

/-- The per-row update performed by `registrar_apontamento`'s SQL
`UPDATE ordens_producao SET quantidade_produzida = quantidade_produzida
+ q, status = CASE WHEN quantidade_produzida + q >= quantidade_total
THEN 'Concluído' ELSE 'Em Produção' END` (column references in SQL
`SET` expressions read the pre-update row). -/
def atualizaOrdemApontamento (q : Int) (r : OrdemProducao) : OrdemProducao :=
  { r with
      quantidade_produzida := r.quantidade_produzida + q
      status :=
        if r.quantidade_produzida + q ≥ r.quantidade_total then "Concluído"
        else "Em Produção" }

/-- The argument dictionary of `registrar_apontamento`. -/
structure DadosApontamento where
  ordem_id : Nat
  data : Int
  turno : String
  quantidade_produzida : Int
  refugo_kg : ℚ
  operador : String
  observacoes : String
  deriving Repr, DecidableEq

/-- `registrar_apontamento` (models/apontamento.py): look up the order;
if it is missing or the new cumulative quantity would exceed the target,
a `ValueError` is raised before any insert, the exception handler
returns `False` and nothing is committed. Otherwise insert one
`producao_diaria` row, update the order's produced quantity and status,
commit, and return `True`. -/
def registrar_apontamento (db : DB) (dados : DadosApontamento) : Bool × DB :=
  match db.ordens.find? (fun r => sqlIdEq r.id (some dados.ordem_id)) with
  | none => (false, db)
  | some ordem =>
    if ordem.quantidade_produzida + dados.quantidade_produzida >
        ordem.quantidade_total then
      (false, db)
    else
      (true,
        { db with
            producao_diaria := db.producao_diaria ++
              [{ ordem_id := dados.ordem_id
                 data := dados.data
                 turno := dados.turno
                 quantidade_produzida := dados.quantidade_produzida
                 refugo_kg := dados.refugo_kg
                 operador := dados.operador
                 observacoes := dados.observacoes }]
            ordens := db.ordens.map (fun r =>
              if sqlIdEq r.id (some dados.ordem_id) then
                atualizaOrdemApontamento dados.quantidade_produzida r
              else r) })

/-- `OrdemProducao.verificar_atrasos`: nothing happens on completed or
cancelled orders; otherwise, when `data_fim` is set and today is
strictly past it, the status becomes `'Atrasado'` on the object and on
the order's database row and the method returns `True`; in every other
case it returns `False` and changes nothing. `hoje` is `date.today()`.
-/
def OrdemProducao.verificar_atrasos (db : DB) (o : OrdemProducao)
    (hoje : Int) : Bool × OrdemProducao × DB :=
  if o.status = "Concluído" ∨ o.status = "Cancelado" then (false, o, db)
  else
    match o.data_fim with
    | none => (false, o, db)
    | some df =>
      if hoje > df then
        (true,
          { o with status := "Atrasado" },
          { db with
              ordens := db.ordens.map (fun r =>
                if sqlIdEq r.id o.id then { r with status := "Atrasado" }
                else r) })
      else (false, o, db)

/-- `OrdemProducao.cancelar`: with an empty reason (`not motivo`) raise
`ValueError`; otherwise set the status to `'Cancelado'`, append the
reason to `observacoes` (Python treats both `None` and `""` as falsy),
write the order row and set the referenced machine and mold back to
`'Disponível'`. -/
def OrdemProducao.cancelar (db : DB) (o : OrdemProducao) (motivo : String) :
    Except String (OrdemProducao × DB) :=
  if motivo = "" then .error "Motivo do cancelamento é obrigatório"
  else
    let obs : String :=
      match o.observacoes with
      | some s =>
        if s ≠ "" then s ++ "\nCancelado: " ++ motivo
        else "Cancelado: " ++ motivo
      | none => "Cancelado: " ++ motivo
    let novo := { o with status := "Cancelado", observacoes := some obs }
    .ok (novo,
      { db with
          ordens := db.ordens.map (fun r =>
            if sqlIdEq r.id o.id then
              { r with status := "Cancelado", observacoes := some obs }
            else r)
          injetoras := db.injetoras.map (fun i =>
            if sqlIdEq i.id (some o.injetora_id) then
              { i with status := "Disponível" }
            else i)
          moldes := db.moldes.map (fun m =>
            if sqlIdEq m.id (some o.molde_id) then
              { m with status := "Disponível" }
            else m) })

/-- `Molde.registrar_manutencao`: unconditionally insert one maintenance
record and then reset the mold row's maintenance counter, set its last
maintenance date and force its status to `'Disponível'`, whatever the
previous status was; no other column of the row is touched. -/
def Molde.registrar_manutencao (db : DB) (m : Molde) (data : Int)
    (tipo_manutencao descricao tecnico : String)
    (custo tempo_parado : ℚ) : DB :=
  { db with
      manutencoes := db.manutencoes ++
        [{ tipo := "molde"
           equipamento_id := m.id
           data_manutencao := data
           tipo_manutencao := tipo_manutencao
           descricao := descricao
           tecnico := tecnico
           custo := custo
           tempo_parado_horas := tempo_parado }]
      moldes := db.moldes.map (fun x =>
        if sqlIdEq x.id m.id then
          { x with
              data_ultima_manutencao := some data
              ciclos_desde_manutencao := 0
              status := "Disponível" }
        else x) }

/-- Shift window boundaries of `config/settings.py`'s `TURNOS`, in
seconds since midnight: A starts 05:40, B starts 14:00, C starts 22:20
and ends 05:40 the next day. -/
def turnoA_inicio : Nat := 5 * 3600 + 40 * 60

/-- 14:00, the end of shift A and start of shift B. -/
def turnoB_inicio : Nat := 14 * 3600

/-- 22:20, the end of shift B and start of shift C. -/
def turnoC_inicio : Nat := 22 * 3600 + 20 * 60

/-- `get_turno_atual` (utils/formatters.py) on the current time of day
`now` (seconds since midnight): the midnight-crossing shift C is handled
first, then the loop over `TURNOS` checks `inicio <= now < fim` for A,
B, and C in dictionary order, and a final fallback returns `'A'`. -/
def get_turno_atual (now : Nat) : String :=
  if now ≥ turnoC_inicio ∨ now < turnoA_inicio then "C"
  else if turnoA_inicio ≤ now ∧ now < turnoB_inicio then "A"
  else if turnoB_inicio ≤ now ∧ now < turnoC_inicio then "B"
  else if turnoC_inicio ≤ now ∧ now < turnoA_inicio then "C"
  else "A"

/-- Membership of a time of day in a shift's window as described by
`TURNOS`: A is [05:40, 14:00), B is [14:00, 22:20), and C, which
crosses midnight, is [22:20, 24:00) ∪ [00:00, 05:40). -/
def inTurno (turno : String) (now : Nat) : Bool :=
  if turno = "A" then turnoA_inicio ≤ now ∧ now < turnoB_inicio
  else if turno = "B" then turnoB_inicio ≤ now ∧ now < turnoC_inicio
  else if turno = "C" then now ≥ turnoC_inicio ∨ now < turnoA_inicio
  else false

/-- One lifecycle operation applied to a tracked order object and the
database, for the lifecycle-status invariant. -/
inductive Op where
  | opSalvar (newId : Nat)
  | opApontamento (dados : DadosApontamento)
  | opVerificarAtrasos (hoje : Int)
  | opCancelar (motivo : String)
  deriving Repr, DecidableEq

/-- Apply one lifecycle operation to the pair (order object, database).
A failed cancellation (empty reason) raises and leaves the state
unchanged; `registrar_apontamento` only touches the database. -/
def applyOp (s : OrdemProducao × DB) : Op → OrdemProducao × DB
  | .opSalvar newId =>
    let r := OrdemProducao.salvar s.2 s.1 newId
    (r.2, r.1)
  | .opApontamento dados =>
    (s.1, (registrar_apontamento s.2 dados).2)
  | .opVerificarAtrasos hoje =>
    let r := OrdemProducao.verificar_atrasos s.2 s.1 hoje
    (r.2.1, r.2.2)
  | .opCancelar motivo =>
    match OrdemProducao.cancelar s.2 s.1 motivo with
    | .ok r => r
    | .error _ => s

/-- Apply a sequence of lifecycle operations in order. -/
def applyOps (s : OrdemProducao × DB) (ops : List Op) : OrdemProducao × DB :=
  ops.foldl applyOp s

/-- The five lifecycle states of a production order. -/
def lifecycleStatuses : List String :=
  ["Pendente", "Em Produção", "Concluído", "Atrasado", "Cancelado"]

/-- The lifecycle-status invariant: the tracked order object and every
order row in the database carry one of the five lifecycle states. -/
def statusInv (s : OrdemProducao × DB) : Prop :=
  s.1.status ∈ lifecycleStatuses ∧
    ∀ r ∈ s.2.ordens, r.status ∈ lifecycleStatuses

/-! Concrete sample data, used to instantiate the theorems below. -/

/-- A sample available machine with id 1. -/
def injetoraExemplo : Injetora :=
  { numero := "INJ-01", marca := "Romi", capacidade_ton := 150
    status := "Disponível", manutencao_proxima := none
    data_ultima_manutencao := none, horimetro_atual := 0
    horimetro_proxima_manutencao := none, observacoes := none
    id := some 1 }

/-- A sample available four-cavity mold with id 1. -/
def moldeExemplo : Molde :=
  { nome := "Molde Tampa 38mm", fabricante := "FabriMold"
    num_cavidades := 4, ciclos_total := 0, ciclos_desde_manutencao := 0
    manutencao_proxima := none, data_ultima_manutencao := none
    status := "Disponível", observacoes := none, id := some 1 }

/-- A sample mold currently reserved by an order (status `'Em Uso'`). -/
def moldeEmUso : Molde :=
  { nome := "Molde Balde 10L", fabricante := "FabriMold"
    num_cavidades := 2, ciclos_total := 5000, ciclos_desde_manutencao := 1200
    manutencao_proxima := some 10000, data_ultima_manutencao := some (-30)
    status := "Em Uso", observacoes := none, id := some 2 }

/-- A sample order in production: 10 of 100 pieces produced, id 7. -/
def ordemExemplo : OrdemProducao :=
  { numero_pedido := "PED-001", cliente := "Cliente A"
    injetora_id := 1, molde_id := 1, quantidade_total := 100
    ciclo_segundos := 30, material := "PP", percentual_master := 2
    peso_peca := 50, data_inicio := 0, data_fim := some 1
    quantidade_produzida := 10, peso_total := some (51 / 10)
    status := "Em Produção", prioridade := 3, observacoes := none
    id := some 7 }

/-- A sample database holding the sample rows. -/
def dbExemplo : DB :=
  { injetoras := [injetoraExemplo], moldes := [moldeExemplo, moldeEmUso]
    ordens := [ordemExemplo], producao_diaria := [], manutencoes := [] }

/-- The order that `criar` builds from the sample machine and mold for
order number PED-002: 100 pieces of 50 g at a 30 s cycle in the
four-cavity mold give 5.1 kg of material and one production day. -/
def ordemNova : OrdemProducao :=
  { numero_pedido := "PED-002", cliente := "Cliente B", injetora_id := 1
    molde_id := 1, quantidade_total := 100, ciclo_segundos := 30
    material := "PP", percentual_master := 2, peso_peca := 50
    data_inicio := 0, data_fim := some 1, quantidade_produzida := 0
    peso_total := some (51 / 10), status := "Pendente", prioridade := 3
    observacoes := none, id := none }

/-- A sample appointment of 40 pieces against order 7. -/
def dadosExemplo : DadosApontamento :=
  { ordem_id := 7, data := 0, turno := "A", quantidade_produzida := 40
    refugo_kg := 3 / 2, operador := "Maria", observacoes := "ok" }

/-! Helper lemmas shared by the claim theorems. -/

/-- `find?` after an id-targeted `map` update: if the lookup found `o`
and the update preserves row ids, the lookup in the updated table finds
the updated `o`. -/
theorem find?_map_update (l : List OrdemProducao) (pid : Nat)
    (f : OrdemProducao → OrdemProducao) (hf : ∀ r, (f r).id = r.id)
    (o : OrdemProducao)
    (h : l.find? (fun r => sqlIdEq r.id (some pid)) = some o) :
    (l.map (fun r => if sqlIdEq r.id (some pid) then f r else r)).find?
      (fun r => sqlIdEq r.id (some pid)) = some (f o) := by
  induction l with
  | nil => simp at h
  | cons a t ih =>
    by_cases ha : sqlIdEq a.id (some pid) = true
    · rw [List.find?_cons_of_pos (p := fun (r : OrdemProducao) => sqlIdEq r.id (some pid)) t ha] at h
      injection h with h
      subst h
      simp only [List.map_cons, if_pos ha]
      exact List.find?_cons_of_pos (p := fun (r : OrdemProducao) => sqlIdEq r.id (some pid)) _
        (by show sqlIdEq (f a).id (some pid) = true
            rw [hf]; exact ha)
    · have ha' : ¬ (sqlIdEq a.id (some pid) = true) := ha
      rw [List.find?_cons_of_neg (p := fun (r : OrdemProducao) => sqlIdEq r.id (some pid)) t ha'] at h
      simp only [List.map_cons, if_neg ha']
      rw [List.find?_cons_of_neg (p := fun (r : OrdemProducao) => sqlIdEq r.id (some pid)) _ ha']
      exact ih h

/-- C8: the three fixed shift windows A (05:40–14:00), B (14:00–22:20)
and C (22:20–05:40, crossing midnight) partition the 24-hour day:
for every time of day, `get_turno_atual` returns exactly the one shift
whose window contains that time, so the fallback `return 'A'` at the end
of the function is unreachable. -/
theorem get_turno_atual_partition (now : Nat) (h : now < 86400) :
    inTurno (get_turno_atual now) now = true ∧
    ∀ s, inTurno s now = true → s = get_turno_atual now := by
  constructor
  · unfold get_turno_atual inTurno turnoA_inicio turnoB_inicio turnoC_inicio
    split_ifs <;> simp_all
  · intro s hs
    unfold inTurno turnoA_inicio turnoB_inicio turnoC_inicio at hs
    unfold get_turno_atual turnoA_inicio turnoB_inicio turnoC_inicio
    split_ifs at hs ⊢ <;> simp_all <;> omega

/-- Witness for C8 at 08:20 (30000 seconds), inside shift A. -/
theorem get_turno_atual_partition_witness :
    30000 < 86400 ∧
      (inTurno (get_turno_atual 30000) 30000 = true ∧
        ∀ s, inTurno s 30000 = true → s = get_turno_atual 30000) :=
  ⟨by decide, get_turno_atual_partition 30000 (by decide)⟩

/-- C1: for an existing order and an appointment of `q > 0` pieces with
`quantidade_produzida + q ≤ quantidade_total`, `registrar_apontamento`
returns `True`, inserts exactly one `producao_diaria` row, increases the
order row's produced quantity by `q`, and the order's status becomes
`'Concluído'` exactly when the new produced quantity reaches the target
(new total ≥ target) and `'Em Produção'` otherwise. -/
theorem registrar_apontamento_success (db : DB) (dados : DadosApontamento)
    (o : OrdemProducao)
    (hfind : db.ordens.find?
      (fun r => sqlIdEq r.id (some dados.ordem_id)) = some o)
    (_hq : 0 < dados.quantidade_produzida)
    (hle : o.quantidade_produzida + dados.quantidade_produzida ≤
      o.quantidade_total) :
    (registrar_apontamento db dados).1 = true ∧
    (registrar_apontamento db dados).2.producao_diaria =
      db.producao_diaria ++
        [{ ordem_id := dados.ordem_id, data := dados.data
           turno := dados.turno
           quantidade_produzida := dados.quantidade_produzida
           refugo_kg := dados.refugo_kg, operador := dados.operador
           observacoes := dados.observacoes }] ∧
    (registrar_apontamento db dados).2.ordens.find?
        (fun r => sqlIdEq r.id (some dados.ordem_id)) =
      some (atualizaOrdemApontamento dados.quantidade_produzida o) ∧
    (atualizaOrdemApontamento dados.quantidade_produzida o).quantidade_produzida
      = o.quantidade_produzida + dados.quantidade_produzida ∧
    ((atualizaOrdemApontamento dados.quantidade_produzida o).status =
        "Concluído" ↔
      o.quantidade_produzida + dados.quantidade_produzida ≥
        o.quantidade_total) ∧
    ((atualizaOrdemApontamento dados.quantidade_produzida o).status ≠
        "Concluído" →
      (atualizaOrdemApontamento dados.quantidade_produzida o).status =
        "Em Produção") := by
  have hcond : ¬ (o.quantidade_produzida + dados.quantidade_produzida >
      o.quantidade_total) := not_lt.mpr hle
  refine ⟨?_, ?_, ?_, rfl, ?_, ?_⟩
  · simp [registrar_apontamento, hfind, hcond]
  · simp [registrar_apontamento, hfind, hcond]
  · simp only [registrar_apontamento, hfind, hcond, if_false]
    exact find?_map_update db.ordens dados.ordem_id
      (atualizaOrdemApontamento dados.quantidade_produzida)
      (fun r => rfl) o hfind
  · unfold atualizaOrdemApontamento
    by_cases hge : o.quantidade_produzida + dados.quantidade_produzida ≥
        o.quantidade_total
    · simp [hge]
    · simp only [if_neg hge]
      constructor
      · intro hst
        exact absurd hst (by decide)
      · intro hg
        exact absurd hg hge
  · unfold atualizaOrdemApontamento
    by_cases hge : o.quantidade_produzida + dados.quantidade_produzida ≥
        o.quantidade_total
    · simp [hge]
    · simp [hge]

/-- Witness for C1: the 40-piece appointment against the sample order
(10 of 100 produced) succeeds and moves it to 50 of 100, `'Em
Produção'`. -/
theorem registrar_apontamento_success_witness :
    (registrar_apontamento dbExemplo dadosExemplo).1 = true ∧
    (registrar_apontamento dbExemplo dadosExemplo).2.producao_diaria =
      dbExemplo.producao_diaria ++
        [{ ordem_id := dadosExemplo.ordem_id, data := dadosExemplo.data
           turno := dadosExemplo.turno
           quantidade_produzida := dadosExemplo.quantidade_produzida
           refugo_kg := dadosExemplo.refugo_kg
           operador := dadosExemplo.operador
           observacoes := dadosExemplo.observacoes }] ∧
    (registrar_apontamento dbExemplo dadosExemplo).2.ordens.find?
        (fun r => sqlIdEq r.id (some dadosExemplo.ordem_id)) =
      some (atualizaOrdemApontamento dadosExemplo.quantidade_produzida
        ordemExemplo) ∧
    (atualizaOrdemApontamento dadosExemplo.quantidade_produzida
        ordemExemplo).quantidade_produzida =
      ordemExemplo.quantidade_produzida + dadosExemplo.quantidade_produzida ∧
    ((atualizaOrdemApontamento dadosExemplo.quantidade_produzida
        ordemExemplo).status = "Concluído" ↔
      ordemExemplo.quantidade_produzida + dadosExemplo.quantidade_produzida ≥
        ordemExemplo.quantidade_total) ∧
    ((atualizaOrdemApontamento dadosExemplo.quantidade_produzida
        ordemExemplo).status ≠ "Concluído" →
      (atualizaOrdemApontamento dadosExemplo.quantidade_produzida
        ordemExemplo).status = "Em Produção") :=
  registrar_apontamento_success dbExemplo dadosExemplo ordemExemplo
    (by rfl) (by decide) (by decide)

/-- C9: when the requested quantity pushed past the order's target, or
the order id does not exist, `registrar_apontamento` returns `False`
and the database is completely unchanged. -/
theorem registrar_apontamento_failure (db : DB) (dados : DadosApontamento)
    (h : db.ordens.find?
          (fun r => sqlIdEq r.id (some dados.ordem_id)) = none ∨
      ∃ o, db.ordens.find?
          (fun r => sqlIdEq r.id (some dados.ordem_id)) = some o ∧
        o.quantidade_total <
          o.quantidade_produzida + dados.quantidade_produzida) :
    registrar_apontamento db dados = (false, db) := by
  rcases h with h | ⟨o, hfind, hgt⟩
  · simp [registrar_apontamento, h]
  · simp [registrar_apontamento, hfind, hgt]

/-- Witness for C9: a 91-piece appointment against the sample order
(10 of 100 produced) exceeds the target and is rejected unchanged. -/
theorem registrar_apontamento_failure_witness :
    registrar_apontamento dbExemplo
      { dadosExemplo with quantidade_produzida := 91 } =
      (false, dbExemplo) :=
  registrar_apontamento_failure dbExemplo
    { dadosExemplo with quantidade_produzida := 91 }
    (Or.inr ⟨ordemExemplo, by rfl, by decide⟩)

/-- C2: saving a newly created order (id `None`) inserts the order row
and flips exactly the referenced machine and the referenced mold to
`'Em Uso'`, leaving every other machine and mold row untouched; saving
an order that already has an id changes no machine or mold at all. -/
theorem salvar_reserva_recursos (db : DB) (o : OrdemProducao) (newId : Nat) :
    (o.id = none →
      (OrdemProducao.salvar db o newId).1.ordens =
        db.ordens ++ [{ o with id := some newId }] ∧
      (OrdemProducao.salvar db o newId).1.injetoras.length =
        db.injetoras.length ∧
      (OrdemProducao.salvar db o newId).1.moldes.length =
        db.moldes.length ∧
      (∀ (k : Nat) (i : Injetora), db.injetoras[k]? = some i →
        (OrdemProducao.salvar db o newId).1.injetoras[k]? =
          some (if sqlIdEq i.id (some o.injetora_id) then
            { i with status := "Em Uso" } else i)) ∧
      (∀ (k : Nat) (m : Molde), db.moldes[k]? = some m →
        (OrdemProducao.salvar db o newId).1.moldes[k]? =
          some (if sqlIdEq m.id (some o.molde_id) then
            { m with status := "Em Uso" } else m))) ∧
    (∀ n, o.id = some n →
      (OrdemProducao.salvar db o newId).1.injetoras = db.injetoras ∧
      (OrdemProducao.salvar db o newId).1.moldes = db.moldes) := by
  constructor
  · intro hid
    refine ⟨?_, ?_, ?_, ?_, ?_⟩
    · simp [OrdemProducao.salvar, hid]
    · simp [OrdemProducao.salvar, hid]
    · simp [OrdemProducao.salvar, hid]
    · intro k i hk
      simp [OrdemProducao.salvar, hid, List.getElem?_map, hk]
    · intro k m hk
      simp [OrdemProducao.salvar, hid, List.getElem?_map, hk]
  · intro n hid
    constructor <;> simp [OrdemProducao.salvar, hid]

/-- Witness for C2: saving the sample order with its id cleared flips
machine 1 to `'Em Uso'`, flips mold 1 to `'Em Uso'`, and leaves the
unrelated mold 2 exactly as it was. -/
theorem salvar_reserva_recursos_witness :
    (OrdemProducao.salvar dbExemplo { ordemExemplo with id := none }
        2).1.injetoras[0]? = some { injetoraExemplo with status := "Em Uso" } ∧
    (OrdemProducao.salvar dbExemplo { ordemExemplo with id := none }
        2).1.moldes[0]? = some { moldeExemplo with status := "Em Uso" } ∧
    (OrdemProducao.salvar dbExemplo { ordemExemplo with id := none }
        2).1.moldes[1]? = some moldeEmUso := by
  have h := (salvar_reserva_recursos dbExemplo
    { ordemExemplo with id := none } 2).1 rfl
  refine ⟨?_, ?_, ?_⟩
  · have h2 := h.2.2.2.1 0 injetoraExemplo (by rfl)
    rw [h2, if_pos (by decide)]
  · have h2 := h.2.2.2.2 0 moldeExemplo (by rfl)
    rw [h2, if_pos (by decide)]
  · have h2 := h.2.2.2.2 1 moldeEmUso (by rfl)
    rw [h2, if_neg (by decide)]

/-- C3: cancelling with a non-empty reason marks the order object and
its database row `'Cancelado'`, appends the cancellation reason to the
order's `observacoes`, and sets the referenced machine and mold back to
`'Disponível'` (other rows and tables untouched); an empty reason raises
`ValueError` and nothing changes. -/
theorem cancelar_libera_recursos (db : DB) (o : OrdemProducao)
    (motivo : String) :
    (motivo = "" →
      OrdemProducao.cancelar db o motivo =
        .error "Motivo do cancelamento é obrigatório") ∧
    (motivo ≠ "" →
      ∃ p, OrdemProducao.cancelar db o motivo = .ok p) ∧
    (∀ (novo : OrdemProducao) (db2 : DB),
      OrdemProducao.cancelar db o motivo = .ok (novo, db2) →
        novo = { o with
          status := "Cancelado"
          observacoes := some (match o.observacoes with
            | some s =>
              if s ≠ "" then s ++ "\nCancelado: " ++ motivo
              else "Cancelado: " ++ motivo
            | none => "Cancelado: " ++ motivo) } ∧
        (∀ (k : Nat) (r : OrdemProducao), db.ordens[k]? = some r →
          db2.ordens[k]? =
            some (if sqlIdEq r.id o.id then
              { r with
                  status := "Cancelado"
                  observacoes := novo.observacoes }
            else r)) ∧
        (∀ (k : Nat) (i : Injetora), db.injetoras[k]? = some i →
          db2.injetoras[k]? =
            some (if sqlIdEq i.id (some o.injetora_id) then
              { i with status := "Disponível" } else i)) ∧
        (∀ (k : Nat) (m : Molde), db.moldes[k]? = some m →
          db2.moldes[k]? =
            some (if sqlIdEq m.id (some o.molde_id) then
              { m with status := "Disponível" } else m)) ∧
        db2.producao_diaria = db.producao_diaria ∧
        db2.manutencoes = db.manutencoes) := by
  refine ⟨?_, ?_, ?_⟩
  · intro h
    simp [OrdemProducao.cancelar, h]
  · intro h
    unfold OrdemProducao.cancelar
    rw [if_neg h]
    exact ⟨_, rfl⟩
  · intro novo db2 heq
    by_cases h : motivo = ""
    · simp [OrdemProducao.cancelar, h] at heq
    · unfold OrdemProducao.cancelar at heq
      rw [if_neg h] at heq
      injection heq with heq
      rw [Prod.ext_iff] at heq
      obtain ⟨h1, h2⟩ := heq
      subst h2
      subst h1
      refine ⟨rfl, ?_, ?_, ?_, rfl, rfl⟩
      · intro k r hk
        simp [hk]
      · intro k i hk
        simp [hk]
      · intro k m hk
        simp [hk]

/-- Witness for C3: cancelling the sample order for lack of material
releases machine 1 and mold 1, and the empty-reason call errors out. -/
theorem cancelar_libera_recursos_witness :
    (OrdemProducao.cancelar dbExemplo ordemExemplo "" =
      .error "Motivo do cancelamento é obrigatório") ∧
    ∃ novo db2,
      OrdemProducao.cancelar dbExemplo ordemExemplo "falta de material" =
        .ok (novo, db2) ∧
      novo.status = "Cancelado" ∧
      novo.observacoes = some "Cancelado: falta de material" ∧
      db2.injetoras[0]? = some injetoraExemplo ∧
      db2.ordens[0]? = some { ordemExemplo with
        status := "Cancelado"
        observacoes := some "Cancelado: falta de material" } := by
  have h := cancelar_libera_recursos dbExemplo ordemExemplo "falta de material"
  obtain ⟨⟨novo, db2⟩, hp⟩ := h.2.1 (by decide)
  obtain ⟨hnovo, hord, hinj, hmol, hpd, hman⟩ := h.2.2 novo db2 hp
  subst hnovo
  refine ⟨(cancelar_libera_recursos dbExemplo ordemExemplo "").1 rfl,
    _, db2, hp, rfl, ?_, ?_, ?_⟩
  · rfl
  · have h2 := hinj 0 injetoraExemplo (by rfl)
    rw [h2, if_pos (by decide)]
    exact rfl
  · have h2 := hord 0 ordemExemplo (by rfl)
    rw [h2, if_pos (by decide)]
    exact rfl

/-- C4: `verificar_atrasos` returns `True` and marks the order
`'Atrasado'` — on the object and on the order's database row — exactly
when the order is neither `'Concluído'` nor `'Cancelado'`, has its
`data_fim` set, and today is strictly past it; in every other case it
returns `False` and leaves everything unchanged. -/
theorem verificar_atrasos_spec (db : DB) (o : OrdemProducao) (hoje : Int) :
    ((OrdemProducao.verificar_atrasos db o hoje).1 = true ↔
      (o.status ≠ "Concluído" ∧ o.status ≠ "Cancelado" ∧
        ∃ df, o.data_fim = some df ∧ hoje > df)) ∧
    ((OrdemProducao.verificar_atrasos db o hoje).1 = true →
      (OrdemProducao.verificar_atrasos db o hoje).2.1.status = "Atrasado" ∧
      (∀ (k : Nat) (r : OrdemProducao), db.ordens[k]? = some r →
        (OrdemProducao.verificar_atrasos db o hoje).2.2.ordens[k]? =
          some (if sqlIdEq r.id o.id then { r with status := "Atrasado" }
            else r))) ∧
    ((OrdemProducao.verificar_atrasos db o hoje).1 = false →
      (OrdemProducao.verificar_atrasos db o hoje).2.1 = o ∧
      (OrdemProducao.verificar_atrasos db o hoje).2.2 = db) := by
  by_cases h1 : o.status = "Concluído" ∨ o.status = "Cancelado"
  · have hval : OrdemProducao.verificar_atrasos db o hoje = (false, o, db) := by
      unfold OrdemProducao.verificar_atrasos
      rw [if_pos h1]
    rw [hval]
    refine ⟨?_, ?_, fun _ => ⟨rfl, rfl⟩⟩
    · simp only [Bool.false_eq_true, false_iff]
      rintro ⟨ha, hb, -⟩
      rcases h1 with h | h
      · exact ha h
      · exact hb h
    · intro hcontra
      exact absurd hcontra (by simp)
  · push_neg at h1
    rcases hdf : o.data_fim with - | df
    · have hval : OrdemProducao.verificar_atrasos db o hoje =
          (false, o, db) := by
        unfold OrdemProducao.verificar_atrasos
        simp only [if_neg (show ¬ (o.status = "Concluído" ∨
          o.status = "Cancelado") by tauto), hdf]
      rw [hval]
      refine ⟨?_, ?_, fun _ => ⟨rfl, rfl⟩⟩
      · simp only [Bool.false_eq_true, false_iff]
        rintro ⟨-, -, df, hdf2, -⟩
        exact Option.noConfusion hdf2
      · intro hcontra
        exact absurd hcontra (by simp)
    · by_cases hgt : hoje > df
      · have hval : OrdemProducao.verificar_atrasos db o hoje =
            (true, { o with status := "Atrasado" },
              { db with ordens := db.ordens.map (fun r =>
                  if sqlIdEq r.id o.id then { r with status := "Atrasado" }
                  else r) }) := by
          unfold OrdemProducao.verificar_atrasos
          simp only [if_neg (show ¬ (o.status = "Concluído" ∨
            o.status = "Cancelado") by tauto), hdf, if_pos hgt]
        rw [hval]
        refine ⟨?_, ?_, ?_⟩
        · simp only [true_iff]
          exact ⟨h1.1, h1.2, df, rfl, hgt⟩
        · intro
          refine ⟨rfl, ?_⟩
          intro k r hk
          simp [hk]
        · intro hcontra
          exact absurd hcontra (by simp)
      · have hval : OrdemProducao.verificar_atrasos db o hoje =
            (false, o, db) := by
          unfold OrdemProducao.verificar_atrasos
          simp only [if_neg (show ¬ (o.status = "Concluído" ∨
            o.status = "Cancelado") by tauto), hdf, if_neg hgt]
        rw [hval]
        refine ⟨?_, ?_, fun _ => ⟨rfl, rfl⟩⟩
        · simp only [Bool.false_eq_true, false_iff]
          rintro ⟨-, -, df2, hdf2, hgt2⟩
          injection hdf2 with hdf2
          exact hgt (hdf2 ▸ hgt2)
        · intro hcontra
          exact absurd hcontra (by simp)

/-- Witness for C4: on 5 (today), the sample order whose `data_fim` is 1
and whose status is `'Em Produção'` is flagged late, in the object and
in its row. -/
theorem verificar_atrasos_witness :
    (OrdemProducao.verificar_atrasos dbExemplo ordemExemplo 5).1 = true ∧
    (OrdemProducao.verificar_atrasos dbExemplo ordemExemplo 5).2.1.status =
      "Atrasado" ∧
    (OrdemProducao.verificar_atrasos dbExemplo ordemExemplo 5).2.2.ordens[0]? =
      some { ordemExemplo with status := "Atrasado" } := by
  have h := verificar_atrasos_spec dbExemplo ordemExemplo 5
  have ht : (OrdemProducao.verificar_atrasos dbExemplo ordemExemplo 5).1 =
      true :=
    h.1.mpr ⟨by decide, by decide, 1, rfl, by decide⟩
  have h2 := h.2.1 ht
  refine ⟨ht, h2.1, ?_⟩
  have h3 := h2.2 0 ordemExemplo (by rfl)
  rw [h3, if_pos (by decide)]

/-- C10: `Molde.registrar_manutencao` always inserts one maintenance
record and then resets the mold row's `ciclos_desde_manutencao` to 0,
sets its `data_ultima_manutencao` to the given date and forces its
status to `'Disponível'` — whatever the previous status was, `'Em Uso'`
included — leaving every other column of the mold and every other table
unchanged. -/
theorem registrar_manutencao_spec (db : DB) (m : Molde) (data : Int)
    (tipo_manutencao descricao tecnico : String) (custo tempo_parado : ℚ) :
    (Molde.registrar_manutencao db m data tipo_manutencao descricao tecnico
        custo tempo_parado).manutencoes =
      db.manutencoes ++
        [{ tipo := "molde", equipamento_id := m.id, data_manutencao := data
           tipo_manutencao := tipo_manutencao, descricao := descricao
           tecnico := tecnico, custo := custo
           tempo_parado_horas := tempo_parado }] ∧
    (∀ (k : Nat) (x : Molde), db.moldes[k]? = some x →
      (Molde.registrar_manutencao db m data tipo_manutencao descricao tecnico
          custo tempo_parado).moldes[k]? =
        some (if sqlIdEq x.id m.id then
          { x with
              data_ultima_manutencao := some data
              ciclos_desde_manutencao := 0
              status := "Disponível" }
        else x)) ∧
    (Molde.registrar_manutencao db m data tipo_manutencao descricao tecnico
        custo tempo_parado).injetoras = db.injetoras ∧
    (Molde.registrar_manutencao db m data tipo_manutencao descricao tecnico
        custo tempo_parado).ordens = db.ordens ∧
    (Molde.registrar_manutencao db m data tipo_manutencao descricao tecnico
        custo tempo_parado).producao_diaria = db.producao_diaria := by
  refine ⟨rfl, ?_, rfl, rfl, rfl⟩
  intro k x hk
  simp [Molde.registrar_manutencao, hk]

/-- Witness for C10: maintenance on the in-use sample mold (id 2) resets
its counter and date and flips it from `'Em Uso'` to `'Disponível'`. -/
theorem registrar_manutencao_witness :
    (Molde.registrar_manutencao dbExemplo moldeEmUso 10 "preventiva"
        "limpeza geral" "Carlos" 800 6).moldes[1]? =
      some { moldeEmUso with
        data_ultima_manutencao := some 10
        ciclos_desde_manutencao := 0
        status := "Disponível" } := by
  have h := (registrar_manutencao_spec dbExemplo moldeEmUso 10 "preventiva"
    "limpeza geral" "Carlos" 800 6).2.1 1 moldeEmUso (by rfl)
  rw [h, if_pos (by decide)]

/-- Eliminator for a successful `criar`: on success the machine and the
mold were found, and the returned order is exactly the record built at
the end of `criar`. -/
theorem criar_ok_elim (db : DB) (np cl : String) (iid mid : Nat)
    (qt : Int) (cs : ℚ) (mat : String) (pm pp : ℚ) (di : Int) (pr : Int)
    (obs : Option String) (o : OrdemProducao)
    (h : OrdemProducao.criar db np cl iid mid qt cs mat pm pp di pr obs =
      .ok o) :
    ∃ injetora molde,
      isBlank np = false ∧ isBlank cl = false ∧ 0 < qt ∧ 0 < cs ∧
      0 ≤ pm ∧ pm ≤ 100 ∧ 0 < pp ∧ (pr = 1 ∨ pr = 2 ∨ pr = 3) ∧
      Injetora.get_by_id db iid = some injetora ∧
      injetora.status = "Disponível" ∧
      Molde.get_by_id db mid = some molde ∧
      molde.status = "Disponível" ∧
      o = { numero_pedido := pyStrip np, cliente := pyStrip cl
            injetora_id := iid
            molde_id := mid, quantidade_total := qt, ciclo_segundos := cs
            material := mat, percentual_master := pm, peso_peca := pp
            data_inicio := di
            data_fim := some (di + max 1 (pythonRound ((((cs / 3600) *
              ((qt : ℚ) / (molde.num_cavidades : ℚ))) / (85 / 100)) / 24)))
            quantidade_produzida := 0
            peso_total := some (((qt : ℚ) * pp / 1000) * (1 + pm / 100))
            status := "Pendente", prioridade := pr, observacoes := obs
            id := none } := by
  unfold OrdemProducao.criar at h
  by_cases h1 : isBlank np = true
  · rw [if_pos h1] at h; exact Except.noConfusion h
  rw [if_neg h1] at h
  by_cases h2 : isBlank cl = true
  · rw [if_pos h2] at h; exact Except.noConfusion h
  rw [if_neg h2] at h
  by_cases h3 : qt ≤ 0
  · rw [if_pos h3] at h; exact Except.noConfusion h
  rw [if_neg h3] at h
  by_cases h4 : cs ≤ 0
  · rw [if_pos h4] at h; exact Except.noConfusion h
  rw [if_neg h4] at h
  by_cases h5 : pm < 0 ∨ pm > 100
  · rw [if_pos h5] at h; exact Except.noConfusion h
  rw [if_neg h5] at h
  by_cases h6 : pp ≤ 0
  · rw [if_pos h6] at h; exact Except.noConfusion h
  rw [if_neg h6] at h
  by_cases h7 : ¬ (pr = 1 ∨ pr = 2 ∨ pr = 3)
  · rw [if_pos h7] at h; exact Except.noConfusion h
  rw [if_neg h7] at h
  rcases hInj : Injetora.get_by_id db iid with - | inj
  · simp only [hInj] at h
    exact Except.noConfusion h
  · simp only [hInj] at h
    by_cases hIs : inj.status ≠ "Disponível"
    · rw [if_pos hIs] at h; exact Except.noConfusion h
    rw [if_neg hIs] at h
    rcases hMol : Molde.get_by_id db mid with - | molde
    · simp only [hMol] at h
      exact Except.noConfusion h
    · simp only [hMol] at h
      by_cases hMs : molde.status ≠ "Disponível"
      · rw [if_pos hMs] at h; exact Except.noConfusion h
      rw [if_neg hMs] at h
      injection h with h
      push_neg at h5
      exact ⟨inj, molde, by simpa using h1, by simpa using h2,
        not_le.mp h3, not_le.mp h4, h5.1, h5.2,
        not_le.mp h6,
        not_not.mp h7, rfl, not_not.mp hIs, rfl, not_not.mp hMs, h.symm⟩

/-- Eliminator for a failed `criar`: an error is only ever raised for
one of the eleven invalid-input conditions. -/
theorem criar_error_elim (db : DB) (np cl : String) (iid mid : Nat)
    (qt : Int) (cs : ℚ) (mat : String) (pm pp : ℚ) (di : Int) (pr : Int)
    (obs : Option String) (e : String)
    (h : OrdemProducao.criar db np cl iid mid qt cs mat pm pp di pr obs =
      .error e) :
    isBlank np = true ∨ isBlank cl = true ∨ qt ≤ 0 ∨ cs ≤ 0 ∨
      (pm < 0 ∨ pm > 100) ∨ pp ≤ 0 ∨ ¬ (pr = 1 ∨ pr = 2 ∨ pr = 3) ∨
      Injetora.get_by_id db iid = none ∨
      (∃ i, Injetora.get_by_id db iid = some i ∧ i.status ≠ "Disponível") ∨
      Molde.get_by_id db mid = none ∨
      (∃ m, Molde.get_by_id db mid = some m ∧ m.status ≠ "Disponível") := by
  unfold OrdemProducao.criar at h
  by_cases h1 : isBlank np = true
  · exact Or.inl h1
  rw [if_neg h1] at h
  by_cases h2 : isBlank cl = true
  · exact Or.inr (Or.inl h2)
  rw [if_neg h2] at h
  by_cases h3 : qt ≤ 0
  · exact Or.inr (Or.inr (Or.inl h3))
  rw [if_neg h3] at h
  by_cases h4 : cs ≤ 0
  · exact Or.inr (Or.inr (Or.inr (Or.inl h4)))
  rw [if_neg h4] at h
  by_cases h5 : pm < 0 ∨ pm > 100
  · exact Or.inr (Or.inr (Or.inr (Or.inr (Or.inl h5))))
  rw [if_neg h5] at h
  by_cases h6 : pp ≤ 0
  · exact Or.inr (Or.inr (Or.inr (Or.inr (Or.inr (Or.inl h6)))))
  rw [if_neg h6] at h
  by_cases h7 : ¬ (pr = 1 ∨ pr = 2 ∨ pr = 3)
  · exact Or.inr (Or.inr (Or.inr (Or.inr (Or.inr (Or.inr (Or.inl h7))))))
  rw [if_neg h7] at h
  rcases hInj : Injetora.get_by_id db iid with - | inj
  · exact Or.inr (Or.inr (Or.inr (Or.inr (Or.inr (Or.inr (Or.inr
      (Or.inl rfl)))))))
  simp only [hInj] at h
  by_cases hIs : inj.status ≠ "Disponível"
  · exact Or.inr (Or.inr (Or.inr (Or.inr (Or.inr (Or.inr (Or.inr (Or.inr
      (Or.inl ⟨inj, rfl, hIs⟩))))))))
  rw [if_neg hIs] at h
  rcases hMol : Molde.get_by_id db mid with - | molde
  · exact Or.inr (Or.inr (Or.inr (Or.inr (Or.inr (Or.inr (Or.inr (Or.inr
      (Or.inr (Or.inl rfl)))))))))
  simp only [hMol] at h
  by_cases hMs : molde.status ≠ "Disponível"
  · exact Or.inr (Or.inr (Or.inr (Or.inr (Or.inr (Or.inr (Or.inr (Or.inr
      (Or.inr (Or.inr ⟨molde, rfl, hMs⟩)))))))))
  rw [if_neg hMs] at h
  exact Except.noConfusion h

/-- The sample creation call for PED-002 succeeds and returns
`ordemNova`: all validations pass against the sample machine and mold.
-/
theorem criar_PED002 :
    OrdemProducao.criar dbExemplo "PED-002" "Cliente B" 1 1 100 30 "PP" 2 50
      0 3 none = .ok ordemNova := by
  have hfloor0 : ⌊(25 / 2448 : ℚ)⌋ = 0 := by
    rw [Int.floor_eq_zero_iff]
    constructor <;> norm_num
  have hround : round (25 / 2448 : ℚ) = 0 := by
    rw [round_eq, Int.floor_eq_zero_iff]
    constructor <;> norm_num
  have hpr : pythonRound (25 / 2448 : ℚ) = 0 := by
    unfold pythonRound
    rw [hfloor0, if_neg (by norm_num), hround]
  unfold OrdemProducao.criar
  rw [if_neg (by decide : ¬ (isBlank "PED-002" = true))]
  rw [if_neg (by decide : ¬ (isBlank "Cliente B" = true))]
  rw [if_neg (by decide : ¬ ((100 : Int) ≤ 0))]
  rw [if_neg (by norm_num : ¬ ((30 : ℚ) ≤ 0))]
  rw [if_neg (by norm_num : ¬ ((2 : ℚ) < 0 ∨ (2 : ℚ) > 100))]
  rw [if_neg (by norm_num : ¬ ((50 : ℚ) ≤ 0))]
  rw [if_neg (by norm_num :
    ¬ ¬ ((3 : Int) = 1 ∨ (3 : Int) = 2 ∨ (3 : Int) = 3))]
  simp only [show Injetora.get_by_id dbExemplo 1 = some injetoraExemplo
    from rfl]
  rw [if_neg (by decide : ¬ (injetoraExemplo.status ≠ "Disponível"))]
  simp only [show Molde.get_by_id dbExemplo 1 = some moldeExemplo from rfl]
  rw [if_neg (by decide : ¬ (moldeExemplo.status ≠ "Disponível"))]
  have harg : ((30 : ℚ) / 3600 * (((100 : Int) : ℚ) /
      (moldeExemplo.num_cavidades : ℚ))) / (85 / 100) / 24 =
      (25 / 2448 : ℚ) := by
    norm_num [moldeExemplo]
  simp only [Except.ok.injEq, OrdemProducao.mk.injEq, ordemNova]
  and_intros
  all_goals first
  | rfl
  | (rw [harg, hpr]; norm_num)
  | norm_num

/-- C6: `criar` raises `ValueError` exactly when some input is invalid —
blank `numero_pedido` or `cliente`, `quantidade_total ≤ 0`,
`ciclo_segundos ≤ 0`, `percentual_master` outside [0, 100],
`peso_peca ≤ 0`, `prioridade` outside {1, 2, 3}, or a missing or
non-available machine or mold — and otherwise returns an order with
status `'Pendente'`, `quantidade_produzida = 0`, and
whitespace-trimmed order number and client. -/
theorem criar_validacao (db : DB) (np cl : String) (iid mid : Nat)
    (qt : Int) (cs : ℚ) (mat : String) (pm pp : ℚ) (di : Int) (pr : Int)
    (obs : Option String) :
    ((∃ e, OrdemProducao.criar db np cl iid mid qt cs mat pm pp di pr obs =
        .error e) ↔
      (isBlank np = true ∨ isBlank cl = true ∨ qt ≤ 0 ∨ cs ≤ 0 ∨
        (pm < 0 ∨ pm > 100) ∨ pp ≤ 0 ∨ ¬ (pr = 1 ∨ pr = 2 ∨ pr = 3) ∨
        Injetora.get_by_id db iid = none ∨
        (∃ i, Injetora.get_by_id db iid = some i ∧
          i.status ≠ "Disponível") ∨
        Molde.get_by_id db mid = none ∨
        (∃ m, Molde.get_by_id db mid = some m ∧
          m.status ≠ "Disponível"))) ∧
    (∀ o, OrdemProducao.criar db np cl iid mid qt cs mat pm pp di pr obs =
        .ok o →
      o.status = "Pendente" ∧ o.quantidade_produzida = 0 ∧
      o.numero_pedido = pyStrip np ∧ o.cliente = pyStrip cl) := by
  constructor
  · constructor
    · rintro ⟨e, he⟩
      exact criar_error_elim db np cl iid mid qt cs mat pm pp di pr obs e he
    · intro hdisj
      cases hval : OrdemProducao.criar db np cl iid mid qt cs mat pm pp di
        pr obs with
      | error e => exact ⟨e, rfl⟩
      | ok o =>
        exfalso
        obtain ⟨inj, molde, hb1, hb2, hq3, hq4, hpm1, hpm2, hpp, hpr,
          hInj, hIs, hMol, hMs, -⟩ :=
          criar_ok_elim db np cl iid mid qt cs mat pm pp di pr obs o hval
        rcases hdisj with hc | hc | hc | hc | hc | hc | hc | hc |
          ⟨i, hi, his⟩ | hc | ⟨m, hm, hms⟩
        · rw [hb1] at hc; exact Bool.noConfusion hc
        · rw [hb2] at hc; exact Bool.noConfusion hc
        · exact absurd hc (not_le.mpr hq3)
        · exact absurd hc (not_le.mpr hq4)
        · rcases hc with hc | hc
          · exact absurd hc (not_lt.mpr hpm1)
          · exact absurd hc (not_lt.mpr hpm2)
        · exact absurd hc (not_le.mpr hpp)
        · exact hc hpr
        · rw [hInj] at hc; exact Option.noConfusion hc
        · rw [hInj] at hi
          injection hi with hi
          subst hi
          exact his hIs
        · rw [hMol] at hc; exact Option.noConfusion hc
        · rw [hMol] at hm
          injection hm with hm
          subst hm
          exact hms hMs
  · intro o h
    obtain ⟨inj, molde, -, -, -, -, -, -, -, -, -, -, -, -, ho⟩ :=
      criar_ok_elim db np cl iid mid qt cs mat pm pp di pr obs o h
    subst ho
    exact ⟨rfl, rfl, rfl, rfl⟩

/-- Witness for C6: a blank order number is rejected, and the sample
valid call returns a pending, untouched, trimmed order. -/
theorem criar_validacao_witness :
    (∃ e, OrdemProducao.criar dbExemplo "" "Cliente B" 1 1 100 30 "PP" 2 50
      0 3 none = .error e) ∧
    (ordemNova.status = "Pendente" ∧ ordemNova.quantidade_produzida = 0 ∧
      ordemNova.numero_pedido = pyStrip "PED-002" ∧
      ordemNova.cliente = pyStrip "Cliente B") :=
  ⟨(criar_validacao dbExemplo "" "Cliente B" 1 1 100 30 "PP" 2 50 0 3
      none).1.mpr (Or.inl (by decide)),
   (criar_validacao dbExemplo "PED-002" "Cliente B" 1 1 100 30 "PP" 2 50 0 3
      none).2 ordemNova criar_PED002⟩

/-- C5: for every valid input, `criar` computes the total material
weight as `peso_total = (quantidade_total * peso_peca / 1000) * (1 +
percentual_master / 100)` and the estimated completion date as
`data_inicio` plus `max 1 (round(((ciclo_segundos / 3600) *
(quantidade_total / num_cavidades)) / 0.85 / 24))` days, where
`num_cavidades` is the cavity count of the referenced mold. -/
theorem criar_calculos (db : DB) (np cl : String) (iid mid : Nat)
    (qt : Int) (cs : ℚ) (mat : String) (pm pp : ℚ) (di : Int) (pr : Int)
    (obs : Option String) (o : OrdemProducao)
    (h : OrdemProducao.criar db np cl iid mid qt cs mat pm pp di pr obs =
      .ok o) :
    o.peso_total = some (((qt : ℚ) * pp / 1000) * (1 + pm / 100)) ∧
    ∃ molde, Molde.get_by_id db mid = some molde ∧
      o.data_fim = some (di + max 1 (pythonRound ((((cs / 3600) *
        ((qt : ℚ) / (molde.num_cavidades : ℚ))) / (85 / 100)) / 24))) := by
  obtain ⟨inj, molde, -, -, -, -, -, -, -, -, hInj, -, hMol, -, ho⟩ :=
    criar_ok_elim db np cl iid mid qt cs mat pm pp di pr obs o h
  subst ho
  exact ⟨rfl, molde, hMol, rfl⟩

/-- Witness for C5: creating PED-002 (100 pieces of 50 g, 2% master,
30 s cycle, four cavities) gives 5.1 kg of material and one production
day. -/
theorem criar_calculos_witness :
    ordemNova.peso_total =
      some ((((100 : Int) : ℚ) * 50 / 1000) * (1 + 2 / 100)) ∧
    ∃ molde, Molde.get_by_id dbExemplo 1 = some molde ∧
      ordemNova.data_fim = some (0 + max 1 (pythonRound ((((30 / 3600) *
        (((100 : Int) : ℚ) / (molde.num_cavidades : ℚ))) / (85 / 100)) /
          24))) :=
  criar_calculos dbExemplo "PED-002" "Cliente B" 1 1 100 30 "PP" 2 50 0 3
    none ordemNova criar_PED002

/-- One lifecycle operation keeps the tracked order object and every
order row of the database inside the five lifecycle states. -/
theorem applyOp_preserves_statusInv (s : OrdemProducao × DB) (op : Op)
    (h : statusInv s) : statusInv (applyOp s op) := by
  obtain ⟨h1, h2⟩ := h
  have hAtr : "Atrasado" ∈ lifecycleStatuses := by decide
  have hCanc : "Cancelado" ∈ lifecycleStatuses := by decide
  have hConc : "Concluído" ∈ lifecycleStatuses := by decide
  have hProd : "Em Produção" ∈ lifecycleStatuses := by decide
  cases op with
  | opSalvar newId =>
    rcases hid : s.1.id with - | n
    · constructor
      · simpa [applyOp, OrdemProducao.salvar, hid] using h1
      · intro r hr
        simp only [applyOp, OrdemProducao.salvar, hid, List.mem_append,
          List.mem_singleton] at hr
        rcases hr with hr | hr
        · exact h2 r hr
        · subst hr
          simpa using h1
    · constructor
      · simpa [applyOp, OrdemProducao.salvar, hid] using h1
      · intro r hr
        simp only [applyOp, OrdemProducao.salvar, hid, List.mem_map] at hr
        obtain ⟨r0, hr0, hr⟩ := hr
        by_cases hc : sqlIdEq r0.id (some n) = true
        · rw [if_pos hc] at hr
          subst hr
          simpa using h1
        · rw [if_neg hc] at hr
          subst hr
          exact h2 r0 hr0
  | opApontamento dados =>
    refine ⟨h1, ?_⟩
    intro r hr
    rcases hf : s.2.ordens.find?
        (fun x => sqlIdEq x.id (some dados.ordem_id)) with - | o0
    · simp only [applyOp, registrar_apontamento, hf] at hr
      exact h2 r hr
    · by_cases hq : o0.quantidade_produzida + dados.quantidade_produzida >
          o0.quantidade_total
      · simp only [applyOp, registrar_apontamento, hf, if_pos hq] at hr
        exact h2 r hr
      · simp only [applyOp, registrar_apontamento, hf, if_neg hq,
          List.mem_map] at hr
        obtain ⟨r0, hr0, hr⟩ := hr
        by_cases hc : sqlIdEq r0.id (some dados.ordem_id) = true
        · rw [if_pos hc] at hr
          subst hr
          show (atualizaOrdemApontamento dados.quantidade_produzida
            r0).status ∈ lifecycleStatuses
          unfold atualizaOrdemApontamento
          by_cases hge : r0.quantidade_produzida +
              dados.quantidade_produzida ≥ r0.quantidade_total
          · simp only [if_pos hge]
            exact hConc
          · simp only [if_neg hge]
            exact hProd
        · rw [if_neg hc] at hr
          subst hr
          exact h2 r0 hr0
  | opVerificarAtrasos hoje =>
    by_cases hst : s.1.status = "Concluído" ∨ s.1.status = "Cancelado"
    · have heq : applyOp s (.opVerificarAtrasos hoje) = s := by
        simp [applyOp, OrdemProducao.verificar_atrasos, hst]
      rw [heq]
      exact ⟨h1, h2⟩
    · rcases hdf : s.1.data_fim with - | df
      · have heq : applyOp s (.opVerificarAtrasos hoje) = s := by
          simp [applyOp, OrdemProducao.verificar_atrasos, hst, hdf]
        rw [heq]
        exact ⟨h1, h2⟩
      · by_cases hgt : hoje > df
        · constructor
          · have hobj : (applyOp s (.opVerificarAtrasos hoje)).1.status =
                "Atrasado" := by
              simp [applyOp, OrdemProducao.verificar_atrasos, hst, hdf, hgt]
            rw [hobj]
            exact hAtr
          · intro r hr
            simp only [applyOp, OrdemProducao.verificar_atrasos,
              eq_false hst, if_false, hdf, if_pos hgt, List.mem_map] at hr
            obtain ⟨r0, hr0, hr⟩ := hr
            by_cases hc : sqlIdEq r0.id s.1.id = true
            · rw [if_pos hc] at hr
              subst hr
              exact hAtr
            · rw [if_neg hc] at hr
              subst hr
              exact h2 r0 hr0
        · have heq : applyOp s (.opVerificarAtrasos hoje) = s := by
            simp [applyOp, OrdemProducao.verificar_atrasos, hst, hdf, hgt]
          rw [heq]
          exact ⟨h1, h2⟩
  | opCancelar motivo =>
    by_cases hm : motivo = ""
    · have heq : applyOp s (.opCancelar motivo) = s := by
        simp [applyOp, OrdemProducao.cancelar, hm]
      rw [heq]
      exact ⟨h1, h2⟩
    · constructor
      · have hobj : (applyOp s (.opCancelar motivo)).1.status =
            "Cancelado" := by
          simp [applyOp, OrdemProducao.cancelar, hm]
        rw [hobj]
        exact hCanc
      · intro r hr
        simp only [applyOp, OrdemProducao.cancelar, hm, if_false,
          List.mem_map] at hr
        obtain ⟨r0, hr0, hr⟩ := hr
        by_cases hc : sqlIdEq r0.id s.1.id = true
        · rw [if_pos hc] at hr
          subst hr
          exact hCanc
        · rw [if_neg hc] at hr
          subst hr
          exact h2 r0 hr0

/-- The lifecycle-status invariant is preserved along every operation
sequence. -/
theorem statusInv_applyOps (ops : List Op) (s : OrdemProducao × DB)
    (h : statusInv s) : statusInv (applyOps s ops) := by
  induction ops generalizing s with
  | nil => exact h
  | cons op t ih => exact ih _ (applyOp_preserves_statusInv s op h)

/-- C7: starting from a freshly created order, any sequence of the
lifecycle operations (save, appointment registration, overdue check,
cancellation) keeps the order object's status — and the status of every
order row in the database, provided they start in a lifecycle state —
inside the five states `'Pendente'`, `'Em Produção'`, `'Concluído'`,
`'Atrasado'` and `'Cancelado'`. -/
theorem lifecycle_status_invariant (dbc db0 : DB) (np cl : String)
    (iid mid : Nat) (qt : Int) (cs : ℚ) (mat : String) (pm pp : ℚ)
    (di : Int) (pr : Int) (obs : Option String) (o0 : OrdemProducao)
    (ops : List Op)
    (hcriar : OrdemProducao.criar dbc np cl iid mid qt cs mat pm pp di pr
      obs = .ok o0)
    (hdb : ∀ r ∈ db0.ordens, r.status ∈ lifecycleStatuses) :
    statusInv (applyOps (o0, db0) ops) := by
  obtain ⟨inj, molde, -, -, -, -, -, -, -, -, -, -, -, -, ho⟩ :=
    criar_ok_elim dbc np cl iid mid qt cs mat pm pp di pr obs o0 hcriar
  refine statusInv_applyOps ops (o0, db0) ⟨?_, hdb⟩
  subst ho
  exact (by decide : "Pendente" ∈ lifecycleStatuses)

/-- Witness for C7: creating PED-002 and then saving it, booking the
sample appointment, running the overdue check on day 5 and cancelling
keeps every status in the five lifecycle states. -/
theorem lifecycle_status_invariant_witness :
    statusInv (applyOps (ordemNova, dbExemplo)
      [Op.opSalvar 2, Op.opApontamento dadosExemplo,
        Op.opVerificarAtrasos 5, Op.opCancelar "sem material"]) :=
  lifecycle_status_invariant dbExemplo dbExemplo "PED-002" "Cliente B" 1 1
    100 30 "PP" 2 50 0 3 none ordemNova
    [Op.opSalvar 2, Op.opApontamento dadosExemplo,
      Op.opVerificarAtrasos 5, Op.opCancelar "sem material"]
    criar_PED002 (by decide)

end ControleProducao
